import Mathlib

/-!
Verification of the cache / rate-limiting layer of the repository
(`src/utils/rateLimiter.js` and the Redis-backed `CacheManager`).

The JavaScript source is shallowly embedded: every `CacheManager` and
`RateLimiter` method becomes a pure Lean function over an explicit state,
the Redis client commands the source invokes (`GET`, `SETEX`, `INCRBY`,
`EXPIRE`, `HGETALL`, ...) are modelled on an association-list store, and
JavaScript values that flow through the public interface are modelled by
the inductive type `JSVal`.
-/

namespace ShareCode

/-- A JavaScript value, as far as the cache interface is concerned:
`null`, booleans, (integer) numbers, strings, arrays and plain objects. -/
inductive JSVal where
  | null
  | bool (b : Bool)
  | num (n : Int)
  | str (s : String)
  | arr (xs : List JSVal)
  | obj (fields : List (String × JSVal))

/-- `typeof value === 'string'` in the source. -/
def JSVal.isString : JSVal → Bool
  | .str _ => true
  | _ => false

/-! ### Association-list maps

JS `Map` objects and the Redis key space are both modelled as association
lists; `setAssoc` replaces an existing binding in place (keeping order) and
appends a fresh one, exactly like `Map.prototype.set` / a Redis write. -/

/-- Look a key up in an association list. -/
def lookupAssoc {α : Type} : List (String × α) → String → Option α
  | [], _ => none
  | (k', v') :: rest, k => if k' = k then some v' else lookupAssoc rest k

/-- Bind `k` to `v`, replacing an existing binding in place. -/
def setAssoc {α : Type} : List (String × α) → String → α → List (String × α)
  | [], k, v => [(k, v)]
  | (k', v') :: rest, k, v =>
      if k' = k then (k, v) :: rest else (k', v') :: setAssoc rest k v

/-- Remove any binding of `k`. -/
def removeAssoc {α : Type} : List (String × α) → String → List (String × α)
  | [], _ => []
  | (k', v') :: rest, k =>
      if k' = k then removeAssoc rest k else (k', v') :: removeAssoc rest k

/-- Digits-to-number helper: `none` unless the list is a non-empty run of
decimal digits. -/
def parseNatDigits : List Char → Option Nat
  | [] => none
  | cs => cs.foldl (fun acc c =>
      match acc with
      | none => none
      | some n => if c.isDigit then some (n * 10 + (c.toNat - 48)) else none)
      (some 0)

/-- Integer-string semantics shared by Redis `INCRBY` (which requires the
stored value to be an integer string) and the JavaScript numeric coercion
of an integer string: an optional minus sign followed by digits. -/
def parseIntString (s : String) : Option Int :=
  match s.data with
  | '-' :: cs => (parseNatDigits cs).map (fun n => -(n : Int))
  | cs => (parseNatDigits cs).map (fun n => (n : Int))

/-! ### The Redis store model

A Redis database maps keys to values that are (for the commands this code
uses) either plain strings or hashes (field → string).  Expiries are kept
separately; a command that hits a key of the wrong type raises an error,
modelled with `Except Unit`. -/

/-- A Redis value: a plain string or a hash of fields. -/
inductive RVal where
  | str (s : String)
  | hash (fields : List (String × String))
deriving DecidableEq, Repr

/-- The remote Redis database: key → value, plus per-key expiries (seconds). -/
structure RedisModel where
  entries : List (String × RVal)
  expiries : List (String × Int)
deriving DecidableEq, Repr

/-- `GET key`: `none` for an absent key, error on a hash key. Read-only. -/
def redisGet (m : RedisModel) (key : String) : Except Unit (Option String) :=
  match lookupAssoc m.entries key with
  | none => .ok none
  | some (.str s) => .ok (some s)
  | some (.hash _) => .error ()

/-- `SETEX key ttl value`: stores a string value and sets its expiry. -/
def redisSetEx (m : RedisModel) (key : String) (ttl : Int) (value : String) : RedisModel :=
  ⟨setAssoc m.entries key (.str value), setAssoc m.expiries key ttl⟩

/-- `DEL key`. -/
def redisDel (m : RedisModel) (key : String) : RedisModel :=
  ⟨removeAssoc m.entries key, removeAssoc m.expiries key⟩

/-- `DEL key₁ key₂ …`. -/
def redisDelMulti (m : RedisModel) (keys : List String) : RedisModel :=
  keys.foldl redisDel m

/-- `EXPIRE key ttl`: a no-op when the key is absent. -/
def redisExpire (m : RedisModel) (key : String) (ttl : Int) : RedisModel :=
  match lookupAssoc m.entries key with
  | none => m
  | some _ => ⟨m.entries, setAssoc m.expiries key ttl⟩

/-- `INCRBY key n`: an absent key counts as 0; errors on a hash key or a
non-integer string.  Redis leaves the key's expiry untouched. -/
def redisIncrBy (m : RedisModel) (key : String) (n : Int) :
    Except Unit (Int × RedisModel) :=
  match lookupAssoc m.entries key with
  | none => .ok (n, ⟨setAssoc m.entries key (.str (toString n)), m.expiries⟩)
  | some (.str s) =>
      match parseIntString s with
      | none => .error ()
      | some cur =>
          .ok (cur + n, ⟨setAssoc m.entries key (.str (toString (cur + n))), m.expiries⟩)
  | some (.hash _) => .error ()

/-- `HSET key field value`: errors on a string key. -/
def redisHSet (m : RedisModel) (key field value : String) : Except Unit RedisModel :=
  match lookupAssoc m.entries key with
  | none => .ok ⟨setAssoc m.entries key (.hash [(field, value)]), m.expiries⟩
  | some (.hash fs) => .ok ⟨setAssoc m.entries key (.hash (setAssoc fs field value)), m.expiries⟩
  | some (.str _) => .error ()

/-- `HGET key field`: `none` when the key or the field is absent. Read-only. -/
def redisHGet (m : RedisModel) (key field : String) : Except Unit (Option String) :=
  match lookupAssoc m.entries key with
  | none => .ok none
  | some (.hash fs) => .ok (lookupAssoc fs field)
  | some (.str _) => .error ()

/-- `HGETALL key`: an absent key yields the empty field list. Read-only. -/
def redisHGetAll (m : RedisModel) (key : String) : Except Unit (List (String × String)) :=
  match lookupAssoc m.entries key with
  | none => .ok []
  | some (.hash fs) => .ok fs
  | some (.str _) => .error ()

/-- `HDEL key field`. -/
def redisHDel (m : RedisModel) (key field : String) : Except Unit RedisModel :=
  match lookupAssoc m.entries key with
  | none => .ok m
  | some (.hash fs) => .ok ⟨setAssoc m.entries key (.hash (removeAssoc fs field)), m.expiries⟩
  | some (.str _) => .error ()

/-! ### JSON codec

`CacheManager` serializes with the JavaScript builtins `JSON.stringify` and
`JSON.parse`, which are external collaborators of the repository; they are
modelled as an explicit codec parameter.  `JSON.parse` throwing on
non-JSON text is modelled by `parse` returning `none`. -/

/-- A JSON codec: models the JavaScript `JSON.stringify` / `JSON.parse`
builtin pair used by the source. -/
structure Codec where
  stringify : JSVal → String
  parse : String → Option JSVal

/-- `typeof value === 'string' ? value : JSON.stringify(value)` — the
serialization expression used by `CacheManager.set` and `hset`. -/
def serialize (c : Codec) (v : JSVal) : String :=
  match v with
  | .str s => s
  | v => c.stringify v

/-- Modelled from the spec: `JSON.parse` restricted to non-negative
integer literals (the real builtin, external to the repository, also
handles booleans, strings, arrays and objects; `JSON.parse "123"`
evaluates to the number 123, which is all the concrete instantiations
below need). -/
def jsonParseFrag (s : String) : Option JSVal :=
  (parseNatDigits s.data).map (fun n => .num n)

/-- Modelled from the spec: `JSON.stringify` restricted to non-negative
integer numbers (other values are out of this fragment's range and are
mapped to the empty string, which `jsonParseFrag` rejects). -/
def jsonStringifyFrag : JSVal → String
  | .num n => if n < 0 then "" else (n.toNat).repr
  | _ => ""

/-- The codec made of the two modelled `JSON` builtin fragments. -/
def fragCodec : Codec := ⟨jsonStringifyFrag, jsonParseFrag⟩

/-! ### CacheManager

Embedding of the Redis-backed `CacheManager` class (`cache.js`): each
method takes the manager state (connection flag plus the remote store) and
returns its JavaScript return value together with the successor state.
Every method first checks `this.isConnected` and returns its documented
failure value when disconnected; the `try/catch` blocks map a store error
to the same failure value. -/

/-- The `CacheManager` singleton state: `this.isConnected` plus the remote
Redis database reached through `this.client`. -/
structure CMState where
  isConnected : Bool
  redis : RedisModel
deriving DecidableEq, Repr

namespace CacheManager

/-- `set(key, value, ttl = 3600)`. -/
def set (c : Codec) (st : CMState) (key : String) (value : JSVal) (ttl : Int) :
    Bool × CMState :=
  if st.isConnected = false then (false, st)
  else
    let serializedValue := serialize c value
    (true, ⟨st.isConnected, redisSetEx st.redis key ttl serializedValue⟩)

/-- `get(key, parseJson = true)`. -/
def get (c : Codec) (st : CMState) (key : String) (parseJson : Bool) :
    JSVal × CMState :=
  if st.isConnected = false then (.null, st)
  else
    match redisGet st.redis key with
    | .error _ => (.null, st)
    | .ok none => (.null, st)
    | .ok (some value) =>
        if parseJson then
          match c.parse value with
          | some j => (j, st)
          | none => (.str value, st)
        else (.str value, st)

/-- `del(key)`. -/
def del (st : CMState) (key : String) : Bool × CMState :=
  if st.isConnected = false then (false, st)
  else (true, ⟨st.isConnected, redisDel st.redis key⟩)

/-- `delMultiple(keys)`. -/
def delMultiple (st : CMState) (keys : List String) : Bool × CMState :=
  if st.isConnected = false then (false, st)
  else (true, ⟨st.isConnected, redisDelMulti st.redis keys⟩)

/-- `hset(key, field, value, ttl = 3600)`. -/
def hset (c : Codec) (st : CMState) (key field : String) (value : JSVal) (ttl : Int) :
    Bool × CMState :=
  if st.isConnected = false then (false, st)
  else
    match redisHSet st.redis key field (serialize c value) with
    | .error _ => (false, st)
    | .ok m =>
        let m' := if ttl > 0 then redisExpire m key ttl else m
        (true, ⟨st.isConnected, m'⟩)

/-- `hget(key, field, parseJson = true)`. -/
def hget (c : Codec) (st : CMState) (key field : String) (parseJson : Bool) :
    JSVal × CMState :=
  if st.isConnected = false then (.null, st)
  else
    match redisHGet st.redis key field with
    | .error _ => (.null, st)
    | .ok none => (.null, st)
    | .ok (some value) =>
        if parseJson then
          match c.parse value with
          | some j => (j, st)
          | none => (.str value, st)
        else (.str value, st)

/-- `hgetall(key, parseJson = true)`: a hash with no fields is collapsed to
`null` by the `Object.keys(hash).length === 0` check. -/
def hgetall (c : Codec) (st : CMState) (key : String) (parseJson : Bool) :
    JSVal × CMState :=
  if st.isConnected = false then (.null, st)
  else
    match redisHGetAll st.redis key with
    | .error _ => (.null, st)
    | .ok fields =>
        if fields.length = 0 then (.null, st)
        else if parseJson then
          (.obj (fields.map (fun p =>
            (p.1, match c.parse p.2 with
                  | some j => j
                  | none => .str p.2))), st)
        else (.obj (fields.map (fun p => (p.1, .str p.2))), st)

/-- `incr(key, increment = 1, ttl = 3600)`: `INCRBY` then, when `ttl > 0`,
an `EXPIRE` refresh; returns the post-increment number or `null`. -/
def incr (st : CMState) (key : String) (increment : Int) (ttl : Int) :
    JSVal × CMState :=
  if st.isConnected = false then (.null, st)
  else
    match redisIncrBy st.redis key increment with
    | .error _ => (.null, st)
    | .ok (result, m) =>
        let m' := if ttl > 0 then redisExpire m key ttl else m
        (.num result, ⟨st.isConnected, m'⟩)

/-- The `initialize` method's connection outcome: the `connect` event
handler sets `isConnected := true`; any thrown error is caught and leaves
`isConnected := false` — `initialize` itself never propagates the error. -/
def initializeOutcome (st : CMState) (connectSucceeds : Bool) : CMState :=
  if connectSucceeds then ⟨true, st.redis⟩ else ⟨false, st.redis⟩

end CacheManager

/-! ### StoreClient retry strategy

The `retry_strategy` callback passed to `redis.createClient` in
`CacheManager.initialize`: returning a number schedules the next attempt
after that many milliseconds, returning an `Error` or `undefined` stops
retrying. -/

/-- The argument object node_redis passes to `retry_strategy`. -/
structure RetryOptions where
  errorIsConnRefused : Bool
  totalRetryTime : Nat
  attempt : Nat
deriving DecidableEq, Repr

/-- What the `retry_strategy` callback returns. -/
inductive RetryDecision where
  | retryIn (delayMs : Nat)
  | giveUpError
  | giveUpStop
deriving DecidableEq, Repr

/-- The `retry_strategy` function from `CacheManager.initialize`. -/
def retryStrategy (o : RetryOptions) : RetryDecision :=
  if o.errorIsConnRefused then .giveUpError
  else if o.totalRetryTime > 1000 * 60 * 60 then .giveUpError
  else if o.attempt > 10 then .giveUpStop
  else .retryIn (min (o.attempt * 100) 3000)

/-! ### RateLimiter

Embedding of the `RateLimiter` class (`src/utils/rateLimiter.js`).  A
limiter produced by `createLimiter` is the record of effective option
values the source passes to `express-rate-limit`, and the class state is
the `this.limiters` map. -/

/-- `req.user` — the authenticated-user object, which may lack an `id`. -/
structure JSUser where
  id : Option String
deriving DecidableEq, Repr

/-- The part of an Express request the key generators read. -/
structure Req where
  user : Option JSUser
  ip : String
deriving DecidableEq, Repr

/-- `defaultKeyGenerator(req)`: `user:${req.user.id}` when
`req.user && req.user.id`, else `req.ip`. -/
def defaultKeyGenerator (r : Req) : String :=
  match r.user with
  | some u =>
      match u.id with
      | some i => "user:" ++ i
      | none => r.ip
  | none => r.ip

/-- The options object accepted by `createLimiter`; a `none` field means
the caller omitted it and the destructuring default applies. -/
structure LimiterOpts where
  windowMs : Option Nat
  max : Option Nat
  message : Option String
  keyGenerator : Option (Req → String)
  skipSuccessfulRequests : Option Bool
  skipFailedRequests : Option Bool
  name : Option String

/-- An options object with every field omitted (`createLimiter()`). -/
def LimiterOpts.empty : LimiterOpts := ⟨none, none, none, none, none, none, none⟩

/-- The limiter configuration `createLimiter` hands to `express-rate-limit`
after applying its destructuring defaults. -/
structure Limiter where
  windowMs : Nat
  max : Nat
  message : String
  keyGenerator : Req → String
  skipSuccessfulRequests : Bool
  skipFailedRequests : Bool

/-- The `RateLimiter` singleton state: `this.limiters` (a JS `Map`) and
whether `this.redisClient` is non-null. -/
structure RLState where
  hasRedisClient : Bool
  limiters : List (String × Limiter)

/-- The initial `RateLimiter` state (`constructor`). -/
def RLState.init : RLState := ⟨false, []⟩

/-- `createLimiter(options)`: applies the destructuring defaults, builds
the limiter, and stores it under `name` in `this.limiters`. -/
def createLimiter (st : RLState) (options : LimiterOpts) : Limiter × RLState :=
  let windowMs := options.windowMs.getD (15 * 60 * 1000)
  let maxReq := options.max.getD 100
  let message := options.message.getD "Too many requests from this IP, please try again later"
  let keyGen := options.keyGenerator.getD defaultKeyGenerator
  let skipSuccessful := options.skipSuccessfulRequests.getD false
  let skipFailed := options.skipFailedRequests.getD false
  let name := options.name.getD "default"
  let limiter : Limiter := ⟨windowMs, maxReq, message, keyGen, skipSuccessful, skipFailed⟩
  (limiter, ⟨st.hasRedisClient, setAssoc st.limiters name limiter⟩)

/-- The body a blocked request is answered with. -/
structure BlockResponse where
  status : Nat
  success : Bool
  message : String
  code : String
  retryAfter : Nat
deriving DecidableEq, Repr

/-- The `handler` callback `createLimiter` installs: responds 429 with the
JSON body `{success, message, code, retryAfter}` where
`retryAfter = Math.ceil(windowMs / 1000)`. -/
def rateLimitHandler (l : Limiter) : BlockResponse :=
  ⟨429, false, l.message, "RATE_LIMIT_EXCEEDED", (l.windowMs + 999) / 1000⟩

/-- `createAuthLimiter()`. -/
def createAuthLimiter (st : RLState) : Limiter × RLState :=
  createLimiter st
    ⟨some (15 * 60 * 1000), some 5,
     some "Too many authentication attempts, please try again later",
     none, some true, none, some "auth"⟩

/-! ### Fixed-window evaluation

Modelled from the spec: the per-request counting itself lives in the
external `express-rate-limit` dependency (not under `src/`); per §4.3 it
increments the counter for the derived key with TTL = window and then
compares the post-increment count against the ceiling, blocking with the
`retryAfter` hint the installed handler reports. -/

/-- Outcome of evaluating one request against a policy. -/
inductive EvalResult where
  | allowed (remaining : Nat)
  | blocked (retryAfterSeconds : Nat)
deriving DecidableEq, Repr

/-- Modelled from the spec: one `evaluate` call for a fixed derived key —
increment-then-compare on that key's window counter. -/
def evaluate (l : Limiter) (count : Nat) : EvalResult × Nat :=
  let c := count + 1
  if c ≤ l.max then (.allowed (l.max - c), c)
  else (.blocked ((l.windowMs + 999) / 1000), c)

/-- The counter value after `n` consecutive `evaluate` calls in one window,
starting from a fresh (absent) counter. -/
def countAfter (l : Limiter) : Nat → Nat
  | 0 => 0
  | n + 1 => (evaluate l (countAfter l n)).2

/-- The result of the `(i+1)`-th of a run of consecutive `evaluate` calls
within one window for the same derived key. -/
def callResult (l : Limiter) (i : Nat) : EvalResult :=
  (evaluate l (countAfter l i)).1

/-- The diagnostic record `getRateLimitInfo` resolves with. -/
structure RLInfo where
  limit : Nat
  remaining : Int
  reset : Nat
  resetTime : Nat
deriving DecidableEq, Repr

/-- `getRateLimitInfo(key, limiterName)`: reads
`${limiterName}:${key}` from Redis and derives
`{limit, remaining, reset, resetTime}`; `now` is `Date.now()` in
milliseconds.  (The JS numeric coercion `max - (current || 0)` is modelled
on integer strings; a non-numeric stored string coerces to 0 here where JS
would produce NaN.)  Returns the reply together with the untouched
states. -/
def getRateLimitInfo (st : RLState) (redis : RedisModel) (now : Nat)
    (key limiterName : String) : Option RLInfo × RLState × RedisModel :=
  if st.hasRedisClient = false then (none, st, redis)
  else
    match lookupAssoc st.limiters limiterName with
    | none => (none, st, redis)
    | some limiter =>
        match redisGet redis (limiterName ++ ":" ++ key) with
        | .error _ => (none, st, redis)
        | .ok current =>
            let currentNum : Int := ((current.bind parseIntString).getD 0)
            let remaining := max 0 ((limiter.max : Int) - currentNum)
            let reset := now + limiter.windowMs
            (some ⟨limiter.max, remaining, reset, (reset + 999) / 1000⟩, st, redis)

/-! ## Theorems -/

/-! ### Association-list lemmas -/

theorem lookupAssoc_setAssoc_self {α : Type} (m : List (String × α)) (k : String) (v : α) :
    lookupAssoc (setAssoc m k v) k = some v := by
  induction m with
  | nil => simp [setAssoc, lookupAssoc]
  | cons hd tl ih =>
      obtain ⟨k', v'⟩ := hd
      by_cases h : k' = k
      · simp [setAssoc, h, lookupAssoc]
      · simp [setAssoc, h, lookupAssoc, ih]

theorem lookupAssoc_setAssoc_ne {α : Type} (m : List (String × α)) (k k' : String) (v : α)
    (h : k ≠ k') : lookupAssoc (setAssoc m k v) k' = lookupAssoc m k' := by
  induction m with
  | nil => simp [setAssoc, lookupAssoc, h]
  | cons hd tl ih =>
      obtain ⟨k₀, v₀⟩ := hd
      by_cases h₀ : k₀ = k
      · subst h₀
        simp [setAssoc, lookupAssoc, h]
      · simp [setAssoc, h₀, lookupAssoc, ih]

theorem mem_keys_setAssoc {α : Type} (m : List (String × α)) (k : String) (v : α) (a : String) :
    a ∈ (setAssoc m k v).map Prod.fst ↔ a = k ∨ a ∈ m.map Prod.fst := by
  induction m with
  | nil => simp [setAssoc]
  | cons hd tl ih =>
      obtain ⟨k₀, v₀⟩ := hd
      by_cases h₀ : k₀ = k
      · subst h₀
        simp only [setAssoc, eq_self_iff_true, if_true, List.map_cons, List.mem_cons]
        tauto
      · simp only [setAssoc, if_neg h₀, List.map_cons, List.mem_cons, ih]
        tauto

theorem nodup_keys_setAssoc {α : Type} (m : List (String × α)) (k : String) (v : α)
    (h : (m.map Prod.fst).Nodup) : ((setAssoc m k v).map Prod.fst).Nodup := by
  induction m with
  | nil => simp [setAssoc]
  | cons hd tl ih =>
      obtain ⟨k₀, v₀⟩ := hd
      simp only [List.map_cons, List.nodup_cons] at h
      by_cases h₀ : k₀ = k
      · subst h₀
        simp only [setAssoc, eq_self_iff_true, if_true, List.map_cons, List.nodup_cons]
        exact h
      · simp only [setAssoc, if_neg h₀, List.map_cons, List.nodup_cons]
        refine ⟨?_, ih h.2⟩
        rw [mem_keys_setAssoc]
        rintro (rfl | hmem)
        · exact h₀ rfl
        · exact h.1 hmem

/-! ### Arithmetic and evaluation helpers -/

theorem ceil_div_1000_of_dvd (w : Nat) (h : 1000 ∣ w) : (w + 999) / 1000 = w / 1000 := by
  obtain ⟨q, rfl⟩ := h
  rw [Nat.mul_add_div (by norm_num), Nat.mul_div_cancel_left _ (by norm_num)]
  norm_num

theorem evaluate_snd (l : Limiter) (count : Nat) : (evaluate l count).2 = count + 1 := by
  unfold evaluate
  by_cases h : count + 1 ≤ l.max <;> simp [h]

theorem countAfter_eq (l : Limiter) (n : Nat) : countAfter l n = n := by
  induction n with
  | zero => rfl
  | succ n ih => rw [countAfter, ih, evaluate_snd]

/-! ### Claims -/

/-- Claim C1: for every rate-limit policy with ceiling `C = l.max` and a
whole-second window `W = l.windowMs` ms, among consecutive `evaluate`
calls within one window for the same derived key, exactly the first `C`
return `Allowed` and the `(C+1)`-th returns `Blocked`, whose
`retryAfterSeconds` is `W / 1000`, i.e. at most `W` expressed in
seconds. -/
theorem evaluate_exactly_ceiling_allowed (l : Limiter) (h : 1000 ∣ l.windowMs) :
    (∀ i, i < l.max → callResult l i = .allowed (l.max - (i + 1))) ∧
    callResult l l.max = .blocked (l.windowMs / 1000) ∧
    (l.windowMs / 1000) * 1000 ≤ l.windowMs := by
  refine ⟨?_, ?_, ?_⟩
  · intro i hi
    unfold callResult
    rw [countAfter_eq]
    unfold evaluate
    simp only [if_pos (Nat.succ_le_of_lt hi)]
  · unfold callResult
    rw [countAfter_eq]
    unfold evaluate
    simp only [if_neg (by omega : ¬ l.max + 1 ≤ l.max)]
    rw [ceil_div_1000_of_dvd _ h]
  · exact Nat.div_mul_le_self _ _

/-- Witness for C1 at the `auth` policy (ceiling 5, window 900000 ms). -/
theorem evaluate_exactly_ceiling_allowed_witness :
    callResult (createAuthLimiter RLState.init).1 4 =
      .allowed ((createAuthLimiter RLState.init).1.max - (4 + 1)) ∧
    callResult (createAuthLimiter RLState.init).1 (createAuthLimiter RLState.init).1.max =
      .blocked ((createAuthLimiter RLState.init).1.windowMs / 1000) :=
  ⟨(evaluate_exactly_ceiling_allowed (createAuthLimiter RLState.init).1 ⟨900, rfl⟩).1 4
      (by decide),
   (evaluate_exactly_ceiling_allowed (createAuthLimiter RLState.init).1 ⟨900, rfl⟩).2.1⟩

/-- Claim C5: every limiter built by `createLimiter` answers a blocked
request with HTTP status 429 and the JSON body
`{success: false, message, code: "RATE_LIMIT_EXCEEDED", retryAfter}`,
where `message` is the policy's configured message and `retryAfter` is
the policy window in seconds (`Math.ceil(windowMs / 1000)`, which equals
`windowMs / 1000` exactly for whole-second windows). -/
theorem blocked_response_shape (st : RLState) (options : LimiterOpts) :
    rateLimitHandler (createLimiter st options).1 =
      ⟨429, false,
       options.message.getD "Too many requests from this IP, please try again later",
       "RATE_LIMIT_EXCEEDED",
       (options.windowMs.getD (15 * 60 * 1000) + 999) / 1000⟩ ∧
    (1000 ∣ options.windowMs.getD (15 * 60 * 1000) →
      (options.windowMs.getD (15 * 60 * 1000) + 999) / 1000 =
        options.windowMs.getD (15 * 60 * 1000) / 1000) := by
  exact ⟨rfl, fun h => ceil_div_1000_of_dvd _ h⟩

/-- Witness for C5 at `createLimiter()` with every option omitted
(window 900000 ms, default message). -/
theorem blocked_response_shape_witness :
    rateLimitHandler (createLimiter RLState.init LimiterOpts.empty).1 =
      ⟨429, false, "Too many requests from this IP, please try again later",
       "RATE_LIMIT_EXCEEDED", 900⟩ ∧
    (900000 + 999) / 1000 = 900000 / 1000 :=
  ⟨(blocked_response_shape RLState.init LimiterOpts.empty).1,
   (blocked_response_shape RLState.init LimiterOpts.empty).2 ⟨900, rfl⟩⟩

/-- Claim C4 (corrected): the predefined `auth` policy uses a 15-minute
window, a ceiling of 5 requests, and exempts successful requests from
counting; its limiter key comes from the default key generator, which
uses the caller's network address only when the request carries no
authenticated user (`user:${id}` otherwise) — not IP-based for every
request. -/
theorem auth_limiter_config (st : RLState) :
    (createAuthLimiter st).1.windowMs = 15 * 60 * 1000 ∧
    (createAuthLimiter st).1.max = 5 ∧
    (createAuthLimiter st).1.skipSuccessfulRequests = true ∧
    (createAuthLimiter st).1.keyGenerator = defaultKeyGenerator :=
  ⟨rfl, rfl, rfl, rfl⟩

/-- Counterexample to C4 as stated: an authenticated request to the `auth`
limiter is keyed by its user id, not its network address. -/
theorem auth_limiter_not_ip_based :
    (createAuthLimiter RLState.init).1.keyGenerator ⟨some ⟨some "42"⟩, "203.0.113.9"⟩ =
      "user:42" ∧
    "user:42" ≠ "203.0.113.9" :=
  ⟨rfl, by decide⟩

/-- Claim C8: two `createLimiter` calls under the same name leave the
registry mapping that name to the limiter from the later call
(last-write-wins, no error), and distinct policy names remain unique keys
of the registry map. -/
theorem definePolicy_last_write_wins (st : RLState) (o₁ o₂ : LimiterOpts) (name : String)
    (_h₁ : o₁.name = some name) (h₂ : o₂.name = some name) :
    lookupAssoc (createLimiter (createLimiter st o₁).2 o₂).2.limiters name =
      some (createLimiter (createLimiter st o₁).2 o₂).1 ∧
    ((st.limiters.map Prod.fst).Nodup →
      ((createLimiter (createLimiter st o₁).2 o₂).2.limiters.map Prod.fst).Nodup) := by
  constructor
  · show lookupAssoc (setAssoc _ (o₂.name.getD "default") _) name = _
    rw [h₂]
    exact lookupAssoc_setAssoc_self _ _ _
  · intro hnd
    exact nodup_keys_setAssoc _ _ _ (nodup_keys_setAssoc _ _ _ hnd)

/-- Witness for C8: registering `"p"` twice from the initial state maps
`"p"` to the second limiter. -/
theorem definePolicy_last_write_wins_witness :
    lookupAssoc
      (createLimiter
        (createLimiter RLState.init ⟨some 1000, some 1, some "m1", none, none, none, some "p"⟩).2
        ⟨some 2000, some 2, some "m2", none, none, none, some "p"⟩).2.limiters "p" =
      some (createLimiter
        (createLimiter RLState.init ⟨some 1000, some 1, some "m1", none, none, none, some "p"⟩).2
        ⟨some 2000, some 2, some "m2", none, none, none, some "p"⟩).1 ∧
    ((createLimiter
        (createLimiter RLState.init ⟨some 1000, some 1, some "m1", none, none, none, some "p"⟩).2
        ⟨some 2000, some 2, some "m2", none, none, none, some "p"⟩).2.limiters.map
          Prod.fst).Nodup :=
  ⟨(definePolicy_last_write_wins RLState.init _ _ "p" rfl rfl).1,
   (definePolicy_last_write_wins RLState.init _ _ "p" rfl rfl).2 (by simp [RLState.init])⟩

/-- Claim C9 (corrected): `getRateLimitInfo` leaves all store and registry
state unchanged, and returns the ceiling, the clamped remaining allowance
`max 0 (ceiling - count)`, and the reset estimate `now + window` (with its
ceiling in seconds) — the remaining allowance rather than the current
count itself. -/
theorem getRateLimitInfo_readonly (st : RLState) (redis : RedisModel) (now : Nat)
    (key limiterName : String) :
    (getRateLimitInfo st redis now key limiterName).2 = (st, redis) ∧
    (∀ lim current,
      st.hasRedisClient = true →
      lookupAssoc st.limiters limiterName = some lim →
      redisGet redis (limiterName ++ ":" ++ key) = .ok current →
      (getRateLimitInfo st redis now key limiterName).1 =
        some ⟨lim.max,
              max 0 ((lim.max : Int) - (current.bind parseIntString).getD 0),
              now + lim.windowMs,
              (now + lim.windowMs + 999) / 1000⟩) := by
  constructor
  · unfold getRateLimitInfo
    by_cases h : st.hasRedisClient = false
    · simp [h]
    · simp only [if_neg h]
      cases hl : lookupAssoc st.limiters limiterName with
      | none => rfl
      | some lim =>
          cases hg : redisGet redis (limiterName ++ ":" ++ key) with
          | error e => rfl
          | ok current => rfl
  · intro lim current hc hl hg
    simp [getRateLimitInfo, hc, hl, hg]

/-- Counterexample to C9 as stated: with ceiling 5, stored counts 6 and 7
produce identical `getRateLimitInfo` replies (both clamp `remaining` to
0), so the reply does not carry the current count. -/
theorem getRateLimitInfo_loses_count :
    (getRateLimitInfo ⟨true, [("auth", (createAuthLimiter RLState.init).1)]⟩
        ⟨[("auth:203.0.113.9", .str "6")], []⟩ 0 "203.0.113.9" "auth").1 =
      (getRateLimitInfo ⟨true, [("auth", (createAuthLimiter RLState.init).1)]⟩
        ⟨[("auth:203.0.113.9", .str "7")], []⟩ 0 "203.0.113.9" "auth").1 ∧
    ("6" : String) ≠ "7" :=
  ⟨by decide, by decide⟩

/-- Witness for the corrected C9 at a concrete connected state. -/
theorem getRateLimitInfo_readonly_witness :
    (getRateLimitInfo ⟨true, [("auth", (createAuthLimiter RLState.init).1)]⟩
        ⟨[("auth:203.0.113.9", .str "2")], []⟩ 1000 "203.0.113.9" "auth").2 =
      (⟨true, [("auth", (createAuthLimiter RLState.init).1)]⟩,
       ⟨[("auth:203.0.113.9", .str "2")], []⟩) ∧
    (getRateLimitInfo ⟨true, [("auth", (createAuthLimiter RLState.init).1)]⟩
        ⟨[("auth:203.0.113.9", .str "2")], []⟩ 1000 "203.0.113.9" "auth").1 =
      some ⟨5, 3, 901000, 901⟩ := by
  constructor
  · exact (getRateLimitInfo_readonly _ _ 1000 "203.0.113.9" "auth").1
  · have h := (getRateLimitInfo_readonly
      ⟨true, [("auth", (createAuthLimiter RLState.init).1)]⟩
      ⟨[("auth:203.0.113.9", .str "2")], []⟩ 1000 "203.0.113.9" "auth").2
      (createAuthLimiter RLState.init).1 (some "2") rfl rfl rfl
    exact h.trans (by decide)

/-- Claim C2 (corrected): while disconnected, every cache operation
returns its documented failure value without throwing and leaves the
store untouched (nothing is queued for replay): the reads `get`, `hget`
and `hgetall` return the absent sentinel `null`, the writes `set`, `del`,
`delMultiple` and `hset` return `false` — and `incr` returns `null`, not
`false`. -/
theorem disconnected_ops_fail_fast (c : Codec) (st : CMState) (key field : String)
    (keys : List String) (v : JSVal) (ttl amount : Int) (parseJson : Bool)
    (h : st.isConnected = false) :
    CacheManager.get c st key parseJson = (.null, st) ∧
    CacheManager.hget c st key field parseJson = (.null, st) ∧
    CacheManager.hgetall c st key parseJson = (.null, st) ∧
    CacheManager.set c st key v ttl = (false, st) ∧
    CacheManager.del st key = (false, st) ∧
    CacheManager.delMultiple st keys = (false, st) ∧
    CacheManager.hset c st key field v ttl = (false, st) ∧
    CacheManager.incr st key amount ttl = (.null, st) := by
  refine ⟨?_, ?_, ?_, ?_, ?_, ?_, ?_, ?_⟩ <;>
    simp [CacheManager.get, CacheManager.hget, CacheManager.hgetall, CacheManager.set,
      CacheManager.del, CacheManager.delMultiple, CacheManager.hset, CacheManager.incr, h]

/-- Counterexample to C2 as stated: the disconnected `incr` returns the
sentinel `null`, which is not the boolean `false` the claim promises for
every write. -/
theorem disconnected_incr_not_false :
    (CacheManager.incr ⟨false, ⟨[], []⟩⟩ "k" 1 60).1 = JSVal.null ∧
    JSVal.null ≠ JSVal.bool false :=
  ⟨rfl, fun h => JSVal.noConfusion h⟩

/-- Witness for the corrected C2 at a concrete disconnected state. -/
theorem disconnected_ops_fail_fast_witness :
    CacheManager.get fragCodec ⟨false, ⟨[], []⟩⟩ "k" true = (.null, ⟨false, ⟨[], []⟩⟩) ∧
    CacheManager.hget fragCodec ⟨false, ⟨[], []⟩⟩ "k" "f" true = (.null, ⟨false, ⟨[], []⟩⟩) ∧
    CacheManager.hgetall fragCodec ⟨false, ⟨[], []⟩⟩ "k" true = (.null, ⟨false, ⟨[], []⟩⟩) ∧
    CacheManager.set fragCodec ⟨false, ⟨[], []⟩⟩ "k" (.num 1) 60 = (false, ⟨false, ⟨[], []⟩⟩) ∧
    CacheManager.del ⟨false, ⟨[], []⟩⟩ "k" = (false, ⟨false, ⟨[], []⟩⟩) ∧
    CacheManager.delMultiple ⟨false, ⟨[], []⟩⟩ ["a", "b"] = (false, ⟨false, ⟨[], []⟩⟩) ∧
    CacheManager.hset fragCodec ⟨false, ⟨[], []⟩⟩ "k" "f" (.num 1) 60 =
      (false, ⟨false, ⟨[], []⟩⟩) ∧
    CacheManager.incr ⟨false, ⟨[], []⟩⟩ "k" 1 60 = (.null, ⟨false, ⟨[], []⟩⟩) :=
  disconnected_ops_fail_fast fragCodec ⟨false, ⟨[], []⟩⟩ "k" "f" ["a", "b"] (.num 1) 60 1
    true rfl

/-- Claim C3 (corrected): with the store connected, `set(k, v, ttl)`
followed by `get(k)` with JSON decoding returns `v` when `v` is a
structured (non-string) value the JSON codec round-trips, or a string
that is not itself valid JSON text; a string that parses as JSON comes
back as the parsed value instead of itself. -/
theorem set_get_roundtrip (c : Codec) (st : CMState) (key : String) (v : JSVal) (ttl : Int)
    (hconn : st.isConnected = true)
    (hv : (v.isString = false ∧ c.parse (c.stringify v) = some v) ∨
          (∃ s, v = .str s ∧ c.parse s = none)) :
    (CacheManager.get c (CacheManager.set c st key v ttl).2 key true).1 = v := by
  have hset : (CacheManager.set c st key v ttl).2 =
      ⟨st.isConnected, redisSetEx st.redis key ttl (serialize c v)⟩ := by
    unfold CacheManager.set
    rw [hconn]
    rfl
  rw [hset]
  have hlook : redisGet (redisSetEx st.redis key ttl (serialize c v)) key =
      .ok (some (serialize c v)) := by
    unfold redisGet redisSetEx
    rw [lookupAssoc_setAssoc_self]
  rcases hv with ⟨hstr, hparse⟩ | ⟨s, rfl, hparse⟩
  · have hser : serialize c v = c.stringify v := by
      cases v <;> simp_all [JSVal.isString, serialize]
    rw [hser] at hlook
    simp [CacheManager.get, hconn, hser, hlook, hparse]
  · have hser : serialize c (.str s) = s := rfl
    rw [hser] at hlook
    simp [CacheManager.get, hconn, hser, hlook, hparse]

/-- Counterexample to C3 as stated: the string `"123"` is stored
pass-through but `JSON.parse` accepts it, so `get` returns the number
123, not the string that was set. -/
theorem set_get_string_not_preserved :
    (CacheManager.get fragCodec
        (CacheManager.set fragCodec ⟨true, ⟨[], []⟩⟩ "k" (.str "123") 60).2 "k" true).1 =
      JSVal.num 123 ∧
    JSVal.num 123 ≠ JSVal.str "123" :=
  ⟨rfl, fun h => JSVal.noConfusion h⟩

/-- Witness for the corrected C3: a structured value (the number 7)
round-trips through `set` and `get`. -/
theorem set_get_roundtrip_witness :
    (CacheManager.get fragCodec
        (CacheManager.set fragCodec ⟨true, ⟨[], []⟩⟩ "k" (.num 7) 60).2 "k" true).1 =
      JSVal.num 7 :=
  set_get_roundtrip fragCodec ⟨true, ⟨[], []⟩⟩ "k" (.num 7) 60 rfl (Or.inl ⟨rfl, rfl⟩)

/-- Claim C6: with the store connected and the key holding an integer
counter (or absent, which counts as 0), `incr(key, increment, ttl)`
raises the stored counter by `increment` (the increment itself is a
single store-level `INCRBY`, whose atomicity is the store's), and when
`ttl > 0` the key's expiry is re-applied to `ttl` on that call, while a
`ttl ≤ 0` call leaves every expiry untouched. -/
theorem incr_adds_and_refreshes_ttl (st : CMState) (key : String) (increment ttl cur : Int)
    (hconn : st.isConnected = true)
    (hcur : (lookupAssoc st.redis.entries key = none ∧ cur = 0) ∨
            (∃ s, lookupAssoc st.redis.entries key = some (.str s) ∧
              parseIntString s = some cur)) :
    (CacheManager.incr st key increment ttl).1 = .num (cur + increment) ∧
    lookupAssoc (CacheManager.incr st key increment ttl).2.redis.entries key =
      some (.str (toString (cur + increment))) ∧
    (ttl > 0 →
      lookupAssoc (CacheManager.incr st key increment ttl).2.redis.expiries key = some ttl) ∧
    (ttl ≤ 0 → (CacheManager.incr st key increment ttl).2.redis.expiries = st.redis.expiries) := by
  have hincr : redisIncrBy st.redis key increment =
      .ok (cur + increment,
        ⟨setAssoc st.redis.entries key (.str (toString (cur + increment))), st.redis.expiries⟩) := by
    rcases hcur with ⟨habs, rfl⟩ | ⟨s, hs, hparse⟩
    · simp [redisIncrBy, habs]
    · simp [redisIncrBy, hs, hparse]
  have hexp : ∀ ttl' : Int, ttl' > 0 →
      redisExpire ⟨setAssoc st.redis.entries key (.str (toString (cur + increment))),
        st.redis.expiries⟩ key ttl' =
      ⟨setAssoc st.redis.entries key (.str (toString (cur + increment))),
        setAssoc st.redis.expiries key ttl'⟩ := by
    intro ttl' _
    unfold redisExpire
    rw [lookupAssoc_setAssoc_self]
  by_cases httl : ttl > 0
  · refine ⟨?_, ?_, ?_, ?_⟩ <;>
      simp [CacheManager.incr, hconn, hincr, hexp ttl httl, httl,
        lookupAssoc_setAssoc_self]
  · refine ⟨?_, ?_, ?_, ?_⟩ <;>
      simp [CacheManager.incr, hconn, hincr, httl, lookupAssoc_setAssoc_self]

/-- Witness for C6: a fresh counter incremented by 1 with a 900 second
window becomes 1 with expiry 900, and a `ttl = 0` increment leaves the
(empty) expiry table untouched. -/
theorem incr_adds_and_refreshes_ttl_witness :
    (CacheManager.incr ⟨true, ⟨[], []⟩⟩ "c" 1 900).1 = .num (0 + 1) ∧
    lookupAssoc (CacheManager.incr ⟨true, ⟨[], []⟩⟩ "c" 1 900).2.redis.expiries "c" =
      some 900 ∧
    (CacheManager.incr ⟨true, ⟨[], []⟩⟩ "c" 1 0).2.redis.expiries = [] :=
  ⟨(incr_adds_and_refreshes_ttl ⟨true, ⟨[], []⟩⟩ "c" 1 900 0 rfl (Or.inl ⟨rfl, rfl⟩)).1,
   (incr_adds_and_refreshes_ttl ⟨true, ⟨[], []⟩⟩ "c" 1 900 0 rfl
      (Or.inl ⟨rfl, rfl⟩)).2.2.1 (by norm_num),
   (incr_adds_and_refreshes_ttl ⟨true, ⟨[], []⟩⟩ "c" 1 0 0 rfl
      (Or.inl ⟨rfl, rfl⟩)).2.2.2 (by norm_num)⟩

/-- Claim C7: for a connection attempt with no connection-refused error,
within the cumulative budget and attempt cap, the backoff delay is
`min(attempt × 100 ms, 3000 ms)`; the strategy stops retrying once
cumulative retry time exceeds one hour or the attempt count exceeds 10,
and a failed `initialize` ends with `isConnected = false` instead of
propagating the error. -/
theorem retry_strategy_policy (o : RetryOptions) (st : CMState) :
    (o.errorIsConnRefused = false → o.totalRetryTime ≤ 1000 * 60 * 60 → o.attempt ≤ 10 →
      retryStrategy o = .retryIn (min (o.attempt * 100) 3000)) ∧
    (o.errorIsConnRefused = false → o.totalRetryTime > 1000 * 60 * 60 →
      retryStrategy o = .giveUpError) ∧
    (o.errorIsConnRefused = false → o.totalRetryTime ≤ 1000 * 60 * 60 → o.attempt > 10 →
      retryStrategy o = .giveUpStop) ∧
    (CacheManager.initializeOutcome st false).isConnected = false := by
  refine ⟨?_, ?_, ?_, rfl⟩
  · intro h1 h2 h3
    have h2' : ¬ o.totalRetryTime > 1000 * 60 * 60 := by omega
    have h3' : ¬ o.attempt > 10 := by omega
    simp [retryStrategy, h1, h2', h3']
  · intro h1 h2
    simp [retryStrategy, h1, h2]
  · intro h1 h2 h3
    have h2' : ¬ o.totalRetryTime > 1000 * 60 * 60 := by omega
    simp [retryStrategy, h1, h2', h3]

/-- Witness for C7: attempt 4 backs off 400 ms, an exhausted budget and an
11th attempt both stop retrying, and the failed initialization is left
disconnected. -/
theorem retry_strategy_policy_witness :
    retryStrategy ⟨false, 0, 4⟩ = .retryIn (min (4 * 100) 3000) ∧
    retryStrategy ⟨false, 3600001, 2⟩ = .giveUpError ∧
    retryStrategy ⟨false, 0, 11⟩ = .giveUpStop ∧
    (CacheManager.initializeOutcome ⟨true, ⟨[], []⟩⟩ false).isConnected = false :=
  ⟨(retry_strategy_policy ⟨false, 0, 4⟩ ⟨true, ⟨[], []⟩⟩).1 rfl (by norm_num) (by norm_num),
   (retry_strategy_policy ⟨false, 3600001, 2⟩ ⟨true, ⟨[], []⟩⟩).2.1 rfl (by norm_num),
   (retry_strategy_policy ⟨false, 0, 11⟩ ⟨true, ⟨[], []⟩⟩).2.2.1 rfl (by norm_num)
     (by norm_num),
   (retry_strategy_policy ⟨false, 0, 11⟩ ⟨true, ⟨[], []⟩⟩).2.2.2⟩

/-- Claim C10: with the store connected, `hgetall` on an absent key and on
a key whose hash record has zero fields both return the absent sentinel
`null` — at the public interface an empty hash is indistinguishable from
a missing one. -/
theorem hgetall_empty_is_null (c : Codec) (st : CMState) (key : String) (parseJson : Bool)
    (hconn : st.isConnected = true)
    (h : lookupAssoc st.redis.entries key = none ∨
         lookupAssoc st.redis.entries key = some (.hash [])) :
    CacheManager.hgetall c st key parseJson = (.null, st) := by
  rcases h with h | h <;>
    simp [CacheManager.hgetall, hconn, redisHGetAll, h]

/-- Witness for C10: a missing key and a zero-field hash both yield
`null`. -/
theorem hgetall_empty_is_null_witness :
    CacheManager.hgetall fragCodec ⟨true, ⟨[], []⟩⟩ "missing" true =
      (.null, ⟨true, ⟨[], []⟩⟩) ∧
    CacheManager.hgetall fragCodec ⟨true, ⟨[("h", .hash [])], []⟩⟩ "h" true =
      (.null, ⟨true, ⟨[("h", .hash [])], []⟩⟩) :=
  ⟨hgetall_empty_is_null fragCodec ⟨true, ⟨[], []⟩⟩ "missing" true rfl (Or.inl rfl),
   hgetall_empty_is_null fragCodec ⟨true, ⟨[("h", .hash [])], []⟩⟩ "h" true rfl (Or.inr rfl)⟩

end ShareCode
